import Mathlib

/-!
Verification of the SHEMS backend energy-accounting and tariff/solar engine.

The Python backend (shems-backend) is shallowly embedded here:
* cumulative-energy readings are rationals (`ℚ`); a reading whose `energy_kwh`
  cannot be converted by `float(...)` is `none` in a `List (Option ℚ)`;
* Python's `round(x, n)` is `roundTo n x` (round to nearest; Python breaks exact
  ties to even, Mathlib's `round` breaks them upward — no statement here sits on
  an exact tie, so the two agree on every value involved);
* the solar estimator works over `ℝ` and returns `Option ℝ`, with `none`
  modelling the `ZeroDivisionError` Python raises when the daylight span is zero.
-/

namespace Shems

/-- Python `round(x, n)` on exact decimal data: round to `n` decimal places. -/
def roundTo (n : ℕ) (x : ℚ) : ℚ := (round (x * 10 ^ n) : ℚ) / 10 ^ n

/-- The shared delta-accumulation loop of
`TelemetryTodaySummaryAPI.calc_today_kwh_for_device` and
`TariffCalculatorAPI.calc_monthly_kwh`: walk the readings keeping `prev`;
a `none` reading is skipped by `continue` (it touches neither `prev` nor
`total`); a valid reading first adds `cur - prev` when that delta is positive,
then advances `prev`. -/
def accumLoop : List (Option ℚ) → Option ℚ → ℚ → ℚ
  | [], _, total => total
  | none :: rest, prev, total => accumLoop rest prev total
  | some cur :: rest, prev, total =>
      match prev with
      | none => accumLoop rest (some cur) total
      | some p =>
          accumLoop rest (some cur) (if cur - p > 0 then total + (cur - p) else total)

/-- `TariffCalculatorAPI.calc_monthly_kwh` / `MonthlyReportsAPI.calc_monthly_kwh`
restricted to the already-filtered, time-ordered readings of the month window:
sum of positive deltas, rounded to 2 decimals. -/
def calc_monthly_kwh (readings : List (Option ℚ)) : ℚ :=
  roundTo 2 (accumLoop readings none 0)

/-- `TelemetryTodaySummaryAPI.calc_today_kwh_for_device` on the readings of the
day window: the same loop, rounded to 4 decimals. -/
def calc_today_kwh_for_device (readings : List (Option ℚ)) : ℚ :=
  roundTo 4 (accumLoop readings none 0)

/-- Sum of the positive parts of the successive deltas of a series. -/
def pairSum : List ℚ → ℚ
  | a :: b :: rest => max (b - a) 0 + pairSum (b :: rest)
  | _ => 0

/-- `TariffCalculatorAPI.calculate_tariff`: the nested `if` ladder of the code,
`none` standing for Python's `None` ("N/A"). -/
def calculate_tariff (units : ℚ) (protected_ : Bool) : Option ℚ :=
  if units ≤ 50 then
    if protected_ then some 3.95 else none
  else if units ≤ 100 then
    if protected_ then some 7.74 else some 22.44
  else if units ≤ 200 then
    if protected_ then some 13.01 else some 28.91
  else if units ≤ 300 then
    if protected_ then none else some 33.10
  else
    some 33.10

/-- The tariff tier table as the spec states it: ordered upper bounds with a
protected and an unprotected rate each, and an unbounded final tier. -/
def tariffTiers : List (ℚ × Option ℚ × Option ℚ) :=
  [(50, some 3.95, none),
   (100, some 7.74, some 22.44),
   (200, some 13.01, some 28.91),
   (300, none, some 33.10)]

/-- Modelled from the spec: resolve the tariff from the tier table by taking
the first tier whose upper bound is ≥ the consumption value, falling back to
the unbounded 33.10 tier. Written from the spec's words, to be compared with
`calculate_tariff` taken from the code. -/
def resolveTariff_table (units : ℚ) (protected_ : Bool) : Option ℚ :=
  match tariffTiers.find? (fun t => units ≤ t.1) with
  | some t => if protected_ then t.2.1 else t.2.2
  | none => some 33.10

/-- The protection test of `TariffCalculatorAPI.get`:
`all(month["kwh"] < 200 for month in monthly_usage)` on the six monthly
household totals. -/
def is_protected_of (monthly : List ℚ) : Bool :=
  monthly.all (fun k => decide (k < 200))

/-- One step backward of the month-walking loop in `get_monthly_usage` /
`get_monthly_reports`: month 1 rolls to December of the previous year. -/
def prev_month (ym : ℤ × ℕ) : ℤ × ℕ :=
  if ym.2 = 1 then (ym.1 - 1, 12) else (ym.1, ym.2 - 1)

/-- The month-end computation of the same loops: the first instant of the
following month; December rolls to January of the next year. -/
def next_month (ym : ℤ × ℕ) : ℤ × ℕ :=
  if ym.2 = 12 then (ym.1 + 1, 1) else (ym.1, ym.2 + 1)

/-- The month windows produced by the loop `for i in range(months)` of
`TariffCalculatorAPI.get_monthly_usage` and `MonthlyReportsAPI.get_monthly_reports`:
entry `i` starts at the reference month walked back `i` months and ends at the
first instant of the following month. A month is `(year, month-number)`;
day-of-month and time are always zeroed by the code (`day=1, hour=0, ...`),
so they carry no information and are omitted from the model. -/
def monthWindows (ref : ℤ × ℕ) (n : ℕ) : List ((ℤ × ℕ) × (ℤ × ℕ)) :=
  (List.range n).map fun i => (prev_month^[i] ref, next_month (prev_month^[i] ref))

/-- Calendar validity of a `(year, month)` pair. -/
def ValidMonth (ym : ℤ × ℕ) : Prop := 1 ≤ ym.2 ∧ ym.2 ≤ 12

instance : DecidablePred ValidMonth := fun ym => by
  unfold ValidMonth; infer_instance

/-- The `limit` clamp of `TelemetryRangeAPI.get` and `SolarHistoryAPI.get`:
`max(1, min(20000, int(limit_str)))`. -/
def clamp_limit (n : ℤ) : ℤ := max 1 (min 20000 n)

/-- The limit-handling block of those endpoints, after `int(limit_str)`:
`parsed = some n` when the conversion succeeds with value `n`, `none` when it
raises `ValueError` (non-numeric), in which case the endpoint answers
HTTP 400 "Invalid limit.". -/
def handle_limit (parsed : Option ℤ) : Except String ℤ :=
  match parsed with
  | none => Except.error "Invalid limit."
  | some n => Except.ok (clamp_limit n)

/-- The whole `limit` query-parameter path: a missing parameter defaults to the
string "200", which parses to 200. -/
def limit_of_param (param : Option (Option ℤ)) : Except String ℤ :=
  match param with
  | none => handle_limit (some 200)
  | some parsed => handle_limit parsed

/-- The solar-offset estimate of `MonthlyReportsAPI.get`:
`(installed_capacity_kw * 4 * 365) * 0.7`, capped at half the 12-month
household total. -/
def solar_offset (capacity total : ℚ) : ℚ :=
  min (capacity * 4 * 365 * 0.7) (total * 0.5)

/-- The grid figure of the same endpoint: `max(0, total_kwh - solar_total_kwh)`. -/
def grid_after_solar (capacity total : ℚ) : ℚ :=
  max 0 (total - solar_offset capacity total)

/-- Python `round(x, 3)` over the reals, for the solar estimator. -/
noncomputable def roundTo3R (x : ℝ) : ℝ := (round (x * 1000) : ℝ) / 1000

/-- `solar_service.estimate_solar_kw`. Time instants are real numbers
(seconds); `now - sunrise` and `sunset - sunrise` are the
`.total_seconds()` differences of the code. The result is `none` exactly when
Python raises `ZeroDivisionError`: the daylight span is zero and the guarded
branches did not return first. -/
noncomputable def estimate_solar_kw
    (capacity_kw cloud_cover now sunrise sunset : ℝ) : Option ℝ :=
  if capacity_kw ≤ 0 then some 0
  else if now < sunrise ∨ now > sunset then some 0
  else if sunset - sunrise = 0 then none
  else
    let solar_factor := Real.sin (Real.pi * (now - sunrise) / (sunset - sunrise))
    let cloud_factor := max 0 (1 - cloud_cover / 100 * 0.75)
    some (roundTo3R (max (capacity_kw * solar_factor * cloud_factor) 0))


lemma accumLoop_map_some (xs : List ℚ) :
    ∀ (p t : ℚ), accumLoop (xs.map some) (some p) t = t + pairSum (p :: xs) := by
  induction xs with
  | nil => intro p t; simp [accumLoop, pairSum]
  | cons a rest ih =>
      intro p t
      simp only [List.map_cons, accumLoop, ih a, pairSum]
      by_cases h : a - p > 0
      · rw [if_pos h, max_eq_left (le_of_lt h)]; ring
      · rw [if_neg h, max_eq_right (le_of_not_lt h)]; ring

lemma accumLoop_eq_pairSum (a : ℚ) (xs : List ℚ) :
    accumLoop ((a :: xs).map some) none 0 = pairSum (a :: xs) := by
  simp only [List.map_cons, accumLoop, accumLoop_map_some, zero_add]

lemma pairSum_ge (a : ℚ) (xs : List ℚ) :
    (a :: xs).getLast (by simp) - a ≤ pairSum (a :: xs) := by
  induction xs generalizing a with
  | nil => simp [pairSum]
  | cons b rest ih =>
      have hlast : (a :: b :: rest).getLast (by simp)
          = (b :: rest).getLast (by simp) := by
        simp [List.getLast_cons]
      rw [hlast]
      have h1 := ih b
      have h2 : b - a ≤ max (b - a) 0 := le_max_left _ _
      simp only [pairSum]
      linarith

lemma pairSum_gt (a : ℚ) (xs : List ℚ)
    (hdec : ∃ p ∈ (a :: xs).zip xs, p.2 < p.1) :
    (a :: xs).getLast (by simp) - a < pairSum (a :: xs) := by
  induction xs generalizing a with
  | nil => simp at hdec
  | cons b rest ih =>
      have hlast : (a :: b :: rest).getLast (by simp)
          = (b :: rest).getLast (by simp) := by
        simp [List.getLast_cons]
      rw [hlast]
      simp only [List.zip_cons_cons, List.mem_cons] at hdec
      obtain ⟨p, hp, hplt⟩ := hdec
      simp only [pairSum]
      rcases hp with hp | hp
      · subst hp
        have h1 := pairSum_ge b rest
        have h2 : b - a < max (b - a) 0 := by
          simp only [Prod.fst, Prod.snd] at hplt
          have : b - a < 0 := by linarith
          calc b - a < 0 := this
            _ ≤ max (b - a) 0 := le_max_right _ _
        linarith
      · have h1 := ih b ⟨p, hp, hplt⟩
        have h2 : b - a ≤ max (b - a) 0 := le_max_left _ _
        linarith

lemma pairSum_monotone (a : ℚ) (xs : List ℚ) (hmono : List.Chain' (· ≤ ·) (a :: xs)) :
    pairSum (a :: xs) = (a :: xs).getLast (by simp) - a := by
  induction xs generalizing a with
  | nil => simp [pairSum]
  | cons b rest ih =>
      have hlast : (a :: b :: rest).getLast (by simp)
          = (b :: rest).getLast (by simp) := by
        simp [List.getLast_cons]
      rw [hlast]
      rw [List.chain'_cons] at hmono
      have h1 := ih b hmono.2
      simp only [pairSum, h1, max_eq_left (by linarith [hmono.1] : (0:ℚ) ≤ b - a)]
      ring

lemma accumLoop_skip (l : List (Option ℚ)) :
    ∀ (p : Option ℚ) (t : ℚ),
      accumLoop l p t = accumLoop ((l.filterMap id).map some) p t := by
  induction l with
  | nil => intro p t; rfl
  | cons o rest ih =>
      intro p t
      cases o with
      | none => simpa [accumLoop] using ih p t
      | some a =>
          cases p with
          | none => simpa [accumLoop] using ih (some a) t
          | some q => simpa [accumLoop] using ih (some a) _

lemma monthWindows_succ (ref : ℤ × ℕ) (n : ℕ) :
    monthWindows ref (n + 1)
      = (ref, next_month ref) :: monthWindows (prev_month ref) n := by
  unfold monthWindows
  rw [List.range_succ_eq_map, List.map_cons, List.map_map]
  simp [Function.comp, Function.iterate_succ_apply]

lemma valid_prev_month {ym : ℤ × ℕ} (h : ValidMonth ym) :
    ValidMonth (prev_month ym) := by
  obtain ⟨h1, h2⟩ := h
  unfold prev_month ValidMonth
  by_cases hm : ym.2 = 1
  · simp [hm]
  · simp only [hm, if_false]
    omega

lemma next_prev_month {ym : ℤ × ℕ} (h : ValidMonth ym) :
    next_month (prev_month ym) = ym := by
  obtain ⟨y, m⟩ := ym
  obtain ⟨h1, h2⟩ := h
  simp only at h1 h2
  unfold prev_month next_month
  by_cases hm : m = 1
  · subst hm
    norm_num
  · have hm12 : ¬ (m - 1 = 12) := by omega
    have hsub : m - 1 + 1 = m := by omega
    simp [hm, hm12, hsub]

lemma monthWindows_length (ref : ℤ × ℕ) (n : ℕ) :
    (monthWindows ref n).length = n := by
  simp [monthWindows]

lemma monthWindows_head (ref : ℤ × ℕ) (n : ℕ) (hn : 0 < n) :
    (monthWindows ref n).head? = some (ref, next_month ref) := by
  obtain ⟨m, rfl⟩ := Nat.exists_eq_succ_of_ne_zero (Nat.pos_iff_ne_zero.mp hn)
  rw [monthWindows_succ]
  rfl

lemma monthWindows_mem (ref : ℤ × ℕ) (h : ValidMonth ref) (n : ℕ) :
    ∀ w ∈ monthWindows ref n, w.2 = next_month w.1 ∧ ValidMonth w.1 := by
  induction n generalizing ref with
  | zero => intro w hw; simp [monthWindows] at hw
  | succ m ih =>
      intro w hw
      rw [monthWindows_succ, List.mem_cons] at hw
      rcases hw with hw | hw
      · subst hw; exact ⟨rfl, h⟩
      · exact ih (prev_month ref) (valid_prev_month h) w hw

lemma monthWindows_chain (ref : ℤ × ℕ) (h : ValidMonth ref) (n : ℕ) :
    List.Chain' (fun a b => b.1 = prev_month a.1 ∧ a.1 = next_month b.1)
      (monthWindows ref n) := by
  induction n generalizing ref with
  | zero => simp [monthWindows]
  | succ m ih =>
      rw [monthWindows_succ, List.chain'_cons']
      refine ⟨?_, ih (prev_month ref) (valid_prev_month h)⟩
      intro b hb
      cases m with
      | zero => simp [monthWindows] at hb
      | succ k =>
          rw [monthWindows_succ] at hb
          simp only [Option.mem_def, List.head?_cons, Option.some_inj] at hb
          subst hb
          exact ⟨rfl, (next_prev_month h).symm⟩

lemma roundTo3R_zero : roundTo3R 0 = 0 := by
  simp [roundTo3R]

lemma roundTo3R_nonneg (x : ℝ) (hx : 0 ≤ x) : 0 ≤ roundTo3R x := by
  unfold roundTo3R
  have h : (0 : ℤ) ≤ round (x * 1000) := by
    rw [round_eq]
    refine Int.le_floor.mpr ?_
    push_cast
    linarith
  have h2 : (0 : ℝ) ≤ (round (x * 1000) : ℝ) := by exact_mod_cast h
  linarith

/-- C1 (counterexample): on the spec's own example series
`[10.0, 10.5, 3.0, 3.8]` the accumulator yields 1.3, and 1.3 is NOT strictly
less than `last - first = 3.8 - 10.0 = -6.2`; dropping the negative delta makes
the result larger than the naive difference, not smaller. -/
theorem C1_counterexample :
    calc_monthly_kwh [some 10, some 10.5, some 3, some 3.8] = 1.3 ∧
    ¬ (calc_monthly_kwh [some 10, some 10.5, some 3, some 3.8]
        < (3.8 : ℚ) - 10) := by
  constructor
  · norm_num [calc_monthly_kwh, accumLoop, roundTo]
  · norm_num [calc_monthly_kwh, accumLoop, roundTo]

/-- C1 (amended): on a series with a decrease between increases the
accumulator returns the sum of the positive successive deltas only — the
negative delta is dropped, not subtracted and not treated as a restart — so the
accumulated total is strictly GREATER than `last - first`; in particular
`[10.0, 10.5, 3.0, 3.8]` yields 1.3 at the declared 2-decimal precision. -/
theorem C1_reset_drops_negative_delta (a : ℚ) (xs : List ℚ)
    (hdec : ∃ p ∈ (a :: xs).zip xs, p.2 < p.1) :
    accumLoop ((a :: xs).map some) none 0 = pairSum (a :: xs) ∧
    (a :: xs).getLast (by simp) - a < accumLoop ((a :: xs).map some) none 0 ∧
    calc_monthly_kwh [some 10, some 10.5, some 3, some 3.8] = 1.3 := by
  refine ⟨accumLoop_eq_pairSum a xs, ?_, ?_⟩
  · rw [accumLoop_eq_pairSum]
    exact pairSum_gt a xs hdec
  · norm_num [calc_monthly_kwh, accumLoop, roundTo]

/-- Witness for C1: the hypotheses hold for the spec's example series. -/
theorem C1_reset_drops_negative_delta_witness :
    (∃ p ∈ ([(10 : ℚ), 10.5, 3, 3.8]).zip [(10.5 : ℚ), 3, 3.8], p.2 < p.1) ∧
    (accumLoop (([(10 : ℚ), 10.5, 3, 3.8]).map some) none 0
        = pairSum [(10 : ℚ), 10.5, 3, 3.8] ∧
      ([(10 : ℚ), 10.5, 3, 3.8]).getLast (by simp) - 10
        < accumLoop (([(10 : ℚ), 10.5, 3, 3.8]).map some) none 0 ∧
      calc_monthly_kwh [some 10, some 10.5, some 3, some 3.8] = 1.3) :=
  have h : ∃ p ∈ ([(10 : ℚ), 10.5, 3, 3.8]).zip [(10.5 : ℚ), 3, 3.8],
      p.2 < p.1 := ⟨(10.5, 3), by norm_num, by norm_num⟩
  ⟨h, C1_reset_drops_negative_delta 10 [10.5, 3, 3.8] h⟩

/-- C2: on a monotonically increasing series every reading is kept, the
positive deltas telescope, and the accumulator (at either declared precision)
equals the rounded `last - first`. -/
theorem C2_monotone_telescopes (a : ℚ) (xs : List ℚ)
    (hmono : List.Chain' (· ≤ ·) (a :: xs)) :
    calc_monthly_kwh ((a :: xs).map some)
      = roundTo 2 ((a :: xs).getLast (by simp) - a) ∧
    calc_today_kwh_for_device ((a :: xs).map some)
      = roundTo 4 ((a :: xs).getLast (by simp) - a) := by
  have h1 := accumLoop_eq_pairSum a xs
  have h2 := pairSum_monotone a xs hmono
  rw [calc_monthly_kwh, calc_today_kwh_for_device, h1, h2]
  exact ⟨rfl, rfl⟩

/-- Witness for C2: the monotone series `[1, 2, 3.5]` telescopes. -/
theorem C2_monotone_telescopes_witness :
    List.Chain' (· ≤ ·) [(1 : ℚ), 2, 3.5] ∧
    (calc_monthly_kwh (([(1 : ℚ), 2, 3.5]).map some)
        = roundTo 2 (([(1 : ℚ), 2, 3.5]).getLast (by simp) - 1) ∧
      calc_today_kwh_for_device (([(1 : ℚ), 2, 3.5]).map some)
        = roundTo 4 (([(1 : ℚ), 2, 3.5]).getLast (by simp) - 1)) :=
  have h : List.Chain' (· ≤ ·) [(1 : ℚ), 2, 3.5] := by
    simp [List.chain'_cons]
    norm_num
  ⟨h, C2_monotone_telescopes 1 [2, 3.5] h⟩

/-- C8: the accumulator over an empty or single-sample input returns 0, and a
sequence with invalid (`none`) readings accumulates to exactly the same value
as the sequence with those readings removed — a skipped reading neither
updates `prev` nor contributes a zero delta. -/
theorem C8_invalid_samples_skipped (l : List (Option ℚ)) (x : ℚ) :
    calc_monthly_kwh l = calc_monthly_kwh ((l.filterMap id).map some) ∧
    calc_today_kwh_for_device l
      = calc_today_kwh_for_device ((l.filterMap id).map some) ∧
    calc_monthly_kwh ([] : List (Option ℚ)) = 0 ∧
    calc_today_kwh_for_device ([] : List (Option ℚ)) = 0 ∧
    calc_monthly_kwh [some x] = 0 ∧
    calc_today_kwh_for_device [some x] = 0 := by
  refine ⟨?_, ?_, ?_, ?_, ?_, ?_⟩
  · rw [calc_monthly_kwh, calc_monthly_kwh, accumLoop_skip]
  · rw [calc_today_kwh_for_device, calc_today_kwh_for_device, accumLoop_skip]
  · norm_num [calc_monthly_kwh, accumLoop, roundTo]
  · norm_num [calc_today_kwh_for_device, accumLoop, roundTo]
  · norm_num [calc_monthly_kwh, accumLoop, roundTo]
  · norm_num [calc_today_kwh_for_device, accumLoop, roundTo]

/-- C3: the `if` ladder of `calculate_tariff` agrees with the spec's tier
table (first tier whose upper bound is ≥ the value, unbounded 33.10 above 300)
for every consumption value and protection flag, and in particular
`calculate_tariff 50 protected = 3.95`,
`calculate_tariff 250 unprotected = 33.10`, and
`calculate_tariff 250 protected = notApplicable`. -/
theorem C3_tariff_matches_table (u : ℚ) (p : Bool) :
    calculate_tariff u p = resolveTariff_table u p ∧
    calculate_tariff 50 true = some 3.95 ∧
    calculate_tariff 250 false = some 33.10 ∧
    calculate_tariff 250 true = none := by
  refine ⟨?_, by norm_num [calculate_tariff], by norm_num [calculate_tariff],
    by norm_num [calculate_tariff]⟩
  by_cases h50 : u ≤ 50 <;> by_cases h100 : u ≤ 100 <;> by_cases h200 : u ≤ 200 <;>
    by_cases h300 : u ≤ 300 <;>
    simp [calculate_tariff, resolveTariff_table, tariffTiers, List.find?_cons,
      h50, h100, h200, h300]

/-- C4: on the six monthly household totals, the protection flag is `true`
exactly when every month is strictly below 200 kWh, and any single month at or
above 200 kWh forces it to `false`. -/
theorem C4_protection_iff_all_below_200 (monthly : List ℚ)
    (hlen : monthly.length = 6) :
    (is_protected_of monthly = true ↔ ∀ k ∈ monthly, k < 200) ∧
    ((∃ k ∈ monthly, 200 ≤ k) → is_protected_of monthly = false) := by
  have hiff : is_protected_of monthly = true ↔ ∀ k ∈ monthly, k < 200 := by
    simp [is_protected_of]
  refine ⟨hiff, ?_⟩
  rintro ⟨k, hk, hge⟩
  cases hb : is_protected_of monthly with
  | false => rfl
  | true =>
      have := (hiff.mp hb) k hk
      linarith

/-- Witness for C4: a six-month history entirely below 200 kWh. -/
theorem C4_protection_iff_all_below_200_witness :
    ([(10 : ℚ), 20, 30, 40, 50, 199]).length = 6 ∧
    ((is_protected_of [(10 : ℚ), 20, 30, 40, 50, 199] = true ↔
        ∀ k ∈ [(10 : ℚ), 20, 30, 40, 50, 199], k < 200) ∧
      ((∃ k ∈ [(10 : ℚ), 20, 30, 40, 50, 199], 200 ≤ k) →
        is_protected_of [(10 : ℚ), 20, 30, 40, 50, 199] = false)) :=
  ⟨rfl, C4_protection_iff_all_below_200 [10, 20, 30, 40, 50, 199] rfl⟩

/-- C6: the month walker produces `n` windows, most recent first; window 0 is
the reference month with its end at the first instant of the following month;
every window's end is the month after its start and every start is a valid
calendar month; consecutive windows are consecutive calendar months in both
directions (no duplicate, no skip); and walking 13 windows back from March 2025
crosses the January boundary into December 2024 correctly. -/
theorem C6_month_windows (ref : ℤ × ℕ) (h : ValidMonth ref) (n : ℕ) :
    (monthWindows ref n).length = n ∧
    (0 < n → (monthWindows ref n).head? = some (ref, next_month ref)) ∧
    (∀ w ∈ monthWindows ref n, w.2 = next_month w.1 ∧ ValidMonth w.1) ∧
    List.Chain' (fun a b => b.1 = prev_month a.1 ∧ a.1 = next_month b.1)
      (monthWindows ref n) ∧
    monthWindows ((2025 : ℤ), (3 : ℕ)) 13 =
      [((2025, 3), (2025, 4)), ((2025, 2), (2025, 3)), ((2025, 1), (2025, 2)),
       ((2024, 12), (2025, 1)), ((2024, 11), (2024, 12)), ((2024, 10), (2024, 11)),
       ((2024, 9), (2024, 10)), ((2024, 8), (2024, 9)), ((2024, 7), (2024, 8)),
       ((2024, 6), (2024, 7)), ((2024, 5), (2024, 6)), ((2024, 4), (2024, 5)),
       ((2024, 3), (2024, 4))] :=
  ⟨monthWindows_length ref n, monthWindows_head ref n,
    monthWindows_mem ref h n, monthWindows_chain ref h n, by decide⟩

/-- Witness for C6: July 2025 is a valid reference month. -/
theorem C6_month_windows_witness :
    ValidMonth ((2025 : ℤ), (7 : ℕ)) ∧
    ((monthWindows ((2025 : ℤ), (7 : ℕ)) 2).length = 2 ∧
      (0 < 2 → (monthWindows ((2025 : ℤ), (7 : ℕ)) 2).head?
          = some (((2025 : ℤ), (7 : ℕ)), next_month ((2025 : ℤ), (7 : ℕ)))) ∧
      (∀ w ∈ monthWindows ((2025 : ℤ), (7 : ℕ)) 2,
        w.2 = next_month w.1 ∧ ValidMonth w.1) ∧
      List.Chain' (fun a b => b.1 = prev_month a.1 ∧ a.1 = next_month b.1)
        (monthWindows ((2025 : ℤ), (7 : ℕ)) 2) ∧
      monthWindows ((2025 : ℤ), (3 : ℕ)) 13 =
        [((2025, 3), (2025, 4)), ((2025, 2), (2025, 3)), ((2025, 1), (2025, 2)),
         ((2024, 12), (2025, 1)), ((2024, 11), (2024, 12)), ((2024, 10), (2024, 11)),
         ((2024, 9), (2024, 10)), ((2024, 8), (2024, 9)), ((2024, 7), (2024, 8)),
         ((2024, 6), (2024, 7)), ((2024, 5), (2024, 6)), ((2024, 4), (2024, 5)),
         ((2024, 3), (2024, 4))]) :=
  have h : ValidMonth ((2025 : ℤ), (7 : ℕ)) := by constructor <;> norm_num
  ⟨h, C6_month_windows ((2025 : ℤ), (7 : ℕ)) h 2⟩

/-- C7 (counterexample): a numeric `limit` outside [1, 20000] does NOT fail —
the code silently clamps it: `-5` becomes `ok 1` and `999999` becomes
`ok 20000`, neither is an `InvalidInput` error. -/
theorem C7_counterexample :
    limit_of_param (some (some (-5))) = Except.ok 1 ∧
    limit_of_param (some (some 999999)) = Except.ok 20000 := by
  constructor <;> norm_num [limit_of_param, handle_limit, clamp_limit]

/-- C7 (amended): a numeric `limit` is clamped into [1, 20000]
(`max(1, min(20000, n))`), never surfaced as an error; only a non-numeric
`limit` yields the `InvalidInput` error, and a missing `limit` defaults
to 200. -/
theorem C7_limit_clamped_not_rejected (n : ℤ) :
    limit_of_param (some (some n)) = Except.ok (clamp_limit n) ∧
    1 ≤ clamp_limit n ∧ clamp_limit n ≤ 20000 ∧
    limit_of_param none = Except.ok 200 ∧
    limit_of_param (some none) = Except.error "Invalid limit." := by
  refine ⟨rfl, le_max_left 1 _, ?_, ?_, rfl⟩
  · exact max_le (by norm_num) (min_le_left _ _)
  · norm_num [limit_of_param, handle_limit, clamp_limit]

/-- C9: the annualized solar offset in the monthly report equals
`min(capacity · 4 · 365 · 0.7, 0.5 · total)`, hence never exceeds half the
12-month household total, and the reported grid kWh is
`max(0, total - offset)`. -/
theorem C9_solar_offset_capped (C T : ℚ) :
    solar_offset C T = min (C * 4 * 365 * 0.7) (0.5 * T) ∧
    solar_offset C T ≤ 0.5 * T ∧
    grid_after_solar C T = max 0 (T - solar_offset C T) := by
  refine ⟨?_, ?_, rfl⟩
  · rw [solar_offset, mul_comm T (0.5 : ℚ)]
  · calc solar_offset C T ≤ T * 0.5 := min_le_right _ _
      _ = 0.5 * T := mul_comm _ _

/-- C5: the solar estimator returns 0 for non-positive capacity or `now`
outside `[sunrise, sunset]`; it returns exactly 0 at sunrise and at sunset; at
the daylight midpoint with 0% cloud it returns the capacity (within the
3-decimal rounding); and at 100% cloud it returns
`0.25 · capacity · sin(π · elapsed / daylight)` floored at 0 and rounded to 3
decimals. -/
theorem C5_solar_estimator (cap cloud sunrise sunset : ℝ)
    (hss : sunrise < sunset) (hcl0 : 0 ≤ cloud) (hcl100 : cloud ≤ 100) :
    (∀ now, cap ≤ 0 → estimate_solar_kw cap cloud now sunrise sunset = some 0) ∧
    (∀ now, now < sunrise ∨ now > sunset →
      estimate_solar_kw cap cloud now sunrise sunset = some 0) ∧
    (0 < cap → estimate_solar_kw cap cloud sunrise sunrise sunset = some 0) ∧
    (0 < cap → estimate_solar_kw cap cloud sunset sunrise sunset = some 0) ∧
    (0 < cap → estimate_solar_kw cap 0 ((sunrise + sunset) / 2) sunrise sunset
        = some (roundTo3R cap)) ∧
    (0 < cap → ∀ now, sunrise ≤ now → now ≤ sunset →
      estimate_solar_kw cap 100 now sunrise sunset
        = some (roundTo3R (max (0.25 * cap *
            Real.sin (Real.pi * (now - sunrise) / (sunset - sunrise))) 0))) := by
  have hd : sunset - sunrise ≠ 0 := sub_ne_zero.mpr hss.ne'
  refine ⟨?_, ?_, ?_, ?_, ?_, ?_⟩
  · intro now hcap
    simp [estimate_solar_kw, hcap]
  · intro now hout
    by_cases hcap : cap ≤ 0 <;> simp [estimate_solar_kw, hcap, hout]
  · intro hcap
    have h1 : ¬ (cap ≤ 0) := not_le.mpr hcap
    have h2 : ¬ (sunrise < sunrise ∨ sunrise > sunset) := by
      push_neg
      exact ⟨le_refl _, hss.le⟩
    simp [estimate_solar_kw, h1, h2, hd, roundTo3R_zero]
  · intro hcap
    have h1 : ¬ (cap ≤ 0) := not_le.mpr hcap
    have h2 : ¬ (sunset < sunrise ∨ sunset > sunset) := by
      push_neg
      exact ⟨hss.le, le_refl _⟩
    have harg : Real.pi * (sunset - sunrise) / (sunset - sunrise) = Real.pi := by
      field_simp
    simp [estimate_solar_kw, h1, h2, hd, harg, Real.sin_pi, roundTo3R_zero]
  · intro hcap
    have h1 : ¬ (cap ≤ 0) := not_le.mpr hcap
    have h2 : ¬ ((sunrise + sunset) / 2 < sunrise ∨ (sunrise + sunset) / 2 > sunset) := by
      push_neg
      constructor <;> linarith
    have harg : Real.pi * ((sunrise + sunset) / 2 - sunrise) / (sunset - sunrise)
        = Real.pi / 2 := by
      field_simp
      ring
    have hcf : max (0 : ℝ) (1 - (0 : ℝ) / 100 * 0.75) = 1 := by norm_num
    simp [estimate_solar_kw, h1, h2, hd, harg, Real.sin_pi_div_two, hcf,
      max_eq_left hcap.le]
  · intro hcap now hle1 hle2
    have h1 : ¬ (cap ≤ 0) := not_le.mpr hcap
    have h2 : ¬ (now < sunrise ∨ now > sunset) := by
      push_neg
      exact ⟨hle1, hle2⟩
    simp [estimate_solar_kw, h1, h2, hd]
    have hcf : (0 : ℝ) ⊔ (1 - 0.75) = 0.25 := by norm_num
    rw [hcf]
    congr 2
    ring

/-- Witness for C5: a concrete daylight configuration with
`sunrise = 0 < sunset = 100` and 50% cloud cover. -/
theorem C5_solar_estimator_witness :
    (0 : ℝ) < 100 ∧ (0 : ℝ) ≤ 50 ∧ (50 : ℝ) ≤ 100 ∧
    ((∀ now, (2 : ℝ) ≤ 0 → estimate_solar_kw 2 50 now 0 100 = some 0) ∧
      (∀ now, now < (0 : ℝ) ∨ now > (100 : ℝ) →
        estimate_solar_kw 2 50 now 0 100 = some 0) ∧
      ((0 : ℝ) < 2 → estimate_solar_kw 2 50 0 0 100 = some 0) ∧
      ((0 : ℝ) < 2 → estimate_solar_kw 2 50 100 0 100 = some 0) ∧
      ((0 : ℝ) < 2 → estimate_solar_kw 2 0 (((0 : ℝ) + 100) / 2) 0 100
          = some (roundTo3R 2)) ∧
      ((0 : ℝ) < 2 → ∀ now, (0 : ℝ) ≤ now → now ≤ (100 : ℝ) →
        estimate_solar_kw 2 100 now 0 100
          = some (roundTo3R (max ((0.25 : ℝ) * 2 *
              Real.sin (Real.pi * (now - 0) / (100 - 0))) 0)))) :=
  ⟨by norm_num, by norm_num, by norm_num,
    C5_solar_estimator 2 50 0 100 (by norm_num) (by norm_num) (by norm_num)⟩

/-- C10: with a zero daylight span (`sunrise = sunset = now`) and positive
capacity the estimator reaches the division by zero and raises (`none`)
instead of returning a value; with `sunrise < sunset` and
`sunrise ≤ now ≤ sunset` it always returns a non-negative value. -/
theorem C10_zero_daylight_raises (cap cloud t now sunrise sunset : ℝ)
    (hcap : 0 < cap) (hss : sunrise < sunset) :
    estimate_solar_kw cap cloud t t t = none ∧
    (sunrise ≤ now → now ≤ sunset →
      ∃ y, estimate_solar_kw cap cloud now sunrise sunset = some y ∧ 0 ≤ y) := by
  have h1 : ¬ (cap ≤ 0) := not_le.mpr hcap
  constructor
  · have h2 : ¬ (t < t ∨ t > t) := by
      push_neg
      exact ⟨le_refl t, le_refl t⟩
    simp [estimate_solar_kw, h1, h2]
  · intro hle1 hle2
    have h2 : ¬ (now < sunrise ∨ now > sunset) := by
      push_neg
      exact ⟨hle1, hle2⟩
    have hd : sunset - sunrise ≠ 0 := sub_ne_zero.mpr hss.ne'
    refine ⟨roundTo3R (max (cap *
        Real.sin (Real.pi * (now - sunrise) / (sunset - sunrise))
        * max 0 (1 - cloud / 100 * 0.75)) 0), ?_,
      roundTo3R_nonneg _ (le_max_right _ _)⟩
    simp [estimate_solar_kw, h1, h2, hd]

/-- Witness for C10: capacity 1, zero daylight at `t = 5`, and the window
`[0, 10]` containing `now = 3`. -/
theorem C10_zero_daylight_raises_witness :
    (0 : ℝ) < 1 ∧ (0 : ℝ) < 10 ∧
    (estimate_solar_kw 1 0 5 5 5 = none ∧
      ((0 : ℝ) ≤ 3 → (3 : ℝ) ≤ 10 →
        ∃ y, estimate_solar_kw 1 0 3 0 10 = some y ∧ 0 ≤ y)) :=
  ⟨by norm_num, by norm_num,
    C10_zero_daylight_raises 1 0 5 3 0 10 (by norm_num) (by norm_num)⟩

end Shems
